import Mathlib

/-!
Verification of the insteon-mqtt command-orchestration core against its
specification.  The Python source files
`insteon_mqtt/handler/ModemDbModify.py`, `insteon_mqtt/device/NWayDimmer.py`
and `insteon_mqtt/mqtt/MsgTemplate.py` are shallowly embedded below:
mutable objects become records, in-place mutation becomes explicit state
passing, observable side effects (database mutation, persistence, wire
sends, completion callbacks, bus emissions) become explicit action traces,
and Python exceptions become `Option`/`Except` error results.
-/

set_option autoImplicit false

/-! ## Embedding of `handler/ModemDbModify.py` -/

/-- Modelled from the spec: the command field of `Msg.OutAllLinkUpdate`
(the `message` module is outside the source excerpt).  Section 4.3 of the
spec lists the reply commands: delete, update, add-controller and
add-responder. -/
inductive Cmd where
  | delete
  | update
  | addController
  | addResponder
deriving DecidableEq

/-- A `db.ModemEntry` record: {remote address, group, role, data bytes}.
Only the fields the handler reads or writes are modelled; `data` is the
3-byte data field. -/
structure ModemEntry where
  addr : String
  group : Nat
  is_controller : Bool
  data : Nat × Nat × Nat
deriving DecidableEq

/-- An incoming wire message as classified by `msg_received`: either an
`OutAllLinkUpdate` echo (with its command and its ACK flag, the only two
fields the handler branches on) or any other message type. -/
inductive InsteonMsg where
  | outAllLinkUpdate (cmd : Cmd) (is_ack : Bool)
  | otherMsg
deriving DecidableEq

/-- Outbound messages are opaque to the handler (it only forwards them to
`protocol.send`); model them by an identifier. -/
abbrev OutMsg := Nat

/-- Return codes of `msg_received`: `Msg.UNKNOWN`, `Msg.CONTINUE`,
`Msg.FINISHED`. -/
inductive MsgCode where
  | unknown
  | cont
  | finished
deriving DecidableEq

/-- Database operations the handler performs on `self.db`.  `setData e d`
is the in-place assignment `self.existing_entry.data = self.entry.data`
(the target entry `e` is a handle into the database), `save` is
`self.db.save()`, `addEntry` is `self.db.add_entry` (which, per the source
comment, also saves the database internally), `deleteEntry` is
`self.db.delete_entry`. -/
inductive DbAct where
  | deleteEntry (e : ModemEntry)
  | setData (target : ModemEntry) (d : Nat × Nat × Nat)
  | save
  | addEntry (e : ModemEntry)
deriving DecidableEq

/-- Observable actions of one `msg_received` call, in program order:
database operations, `protocol.send(msg, self)`, and the completion
callback `self.on_done(success, text)` which forwards
`(success, text, self.entry)` to the user callback. -/
inductive Act where
  | db (a : DbAct)
  | send (m : OutMsg)
  | callDone (success : Bool) (text : String) (e : ModemEntry)
deriving DecidableEq

/-- The mutable state of a `ModemDbModify` handler: the pending entry
`self.entry`, the optional `self.existing_entry`, and the FIFO follow-up
queue `self.next` of `(msg, entry)` pairs. -/
structure ModemDbModify where
  entry : ModemEntry
  existing_entry : Option ModemEntry
  next : List (OutMsg × ModemEntry)
deriving DecidableEq

/-- `add_update(msg, entry)`: appends the `(msg, entry)` pair to
`self.next`.  It touches nothing else. -/
def ModemDbModify.add_update (h : ModemDbModify) (msg : OutMsg)
    (entry : ModemEntry) : ModemDbModify :=
  { h with next := h.next ++ [(msg, entry)] }

/-- `on_done(success, text)`: calls the user callback with the extra
`self.entry` argument.  Modelled as the emitted action. -/
def ModemDbModify.on_done (h : ModemDbModify) (success : Bool)
    (text : String) : Act :=
  Act.callDone success text h.entry

/-- The ACK mutation chain of `msg_received` (source lines 116-143): the
`if/elif` dispatch on `msg.cmd` that applies the confirmed change to the
database.  Returns the updated handler state and the database actions, or
`none` for the failed `assert self.existing_entry` in the UPDATE branch. -/
def ModemDbModify.applyMutation (h : ModemDbModify) (cmd : Cmd) :
    Option (ModemDbModify × List Act) :=
  match cmd with
  | Cmd.delete => some (h, [Act.db (DbAct.deleteEntry h.entry)])
  | Cmd.update =>
    match h.existing_entry with
    | none => none
    | some e =>
      some ({ h with existing_entry := some { e with data := h.entry.data } },
            [Act.db (DbAct.setData e h.entry.data), Act.db DbAct.save])
  | Cmd.addController => some (h, [Act.db (DbAct.addEntry h.entry)])
  | Cmd.addResponder => some (h, [Act.db (DbAct.addEntry h.entry)])

/-- `msg_received(protocol, msg)` of `ModemDbModify`.  Returns the updated
handler state, the trace of observable actions in program order, and the
return code; `none` models the `assert self.existing_entry` failure in the
UPDATE branch (a raised `AssertionError`).  Faithful to the source: a
non-`OutAllLinkUpdate` message is returned unhandled with no action; a NAK
reports failure and finishes; an ACK applies the mutation for its command,
then either pops and sends the head of `self.next` (rebinding
`self.entry`) or reports success; both ACK paths return `Msg.FINISHED`. -/
def ModemDbModify.msg_received (h : ModemDbModify) (m : InsteonMsg) :
    Option (ModemDbModify × List Act × MsgCode) :=
  match m with
  | InsteonMsg.otherMsg => some (h, [], MsgCode.unknown)
  | InsteonMsg.outAllLinkUpdate cmd is_ack =>
    if !is_ack then
      some (h, [h.on_done false "Modem database update failed"],
            MsgCode.finished)
    else
      match h.applyMutation cmd with
      | none => none
      | some (h1, acts) =>
        match h1.next with
        | (m2, e2) :: rest =>
          some ({ h1 with entry := e2, next := rest },
                acts ++ [Act.send m2], MsgCode.finished)
        | [] =>
          some (h1, acts ++ [h1.on_done true "Modem database update complete"],
                MsgCode.finished)

/-- Tests whether an action is a completion-callback invocation. -/
def Act.isDone : Act → Bool
  | Act.callDone _ _ _ => true
  | _ => false

/-- Number of completion-callback invocations in a trace. -/
def doneCount (tr : List Act) : Nat :=
  (tr.filter Act.isDone).length

/-- Sample entries and handler states used in concrete evaluations. -/
def e0 : ModemEntry := { addr := "3a.29.84", group := 1, is_controller := true, data := (1, 2, 3) }

def e1 : ModemEntry := { addr := "48.3d.9a", group := 1, is_controller := false, data := (4, 5, 6) }

def hQueue : ModemDbModify := { entry := e0, existing_entry := none, next := [(7, e1)] }

def hEmpty : ModemDbModify := { entry := e0, existing_entry := none, next := [] }

example : hQueue.msg_received (InsteonMsg.outAllLinkUpdate Cmd.delete true) =
    some ({ entry := e1, existing_entry := none, next := [] },
          [Act.db (DbAct.deleteEntry e0), Act.send 7], MsgCode.finished) := by
  decide

example : hEmpty.msg_received (InsteonMsg.outAllLinkUpdate Cmd.delete true) =
    some (hEmpty,
          [Act.db (DbAct.deleteEntry e0),
           Act.callDone true "Modem database update complete" e0],
          MsgCode.finished) := by
  decide

/-! ### Helper lemmas about the mutation chain -/

/-- The mutation chain never touches the follow-up queue or the pending
entry, and its actions are all database actions (no sends, no completion
callbacks). -/
theorem applyMutation_frame (h : ModemDbModify) (cmd : Cmd)
    (h1 : ModemDbModify) (acts : List Act)
    (heq : h.applyMutation cmd = some (h1, acts)) :
    h1.next = h.next ∧ h1.entry = h.entry ∧ doneCount acts = 0 ∧
      (∀ m, Act.send m ∉ acts) := by
  cases cmd <;> simp only [ModemDbModify.applyMutation] at heq
  case delete =>
    cases heq.symm
    refine ⟨rfl, rfl, rfl, ?_⟩
    intro m hm
    simp [List.mem_singleton] at hm
  case update =>
    cases hex : h.existing_entry with
    | none => rw [hex] at heq; cases heq
    | some e =>
      rw [hex] at heq
      cases heq.symm
      refine ⟨rfl, rfl, rfl, ?_⟩
      intro m hm
      simp at hm
  case addController =>
    cases heq.symm
    refine ⟨rfl, rfl, rfl, ?_⟩
    intro m hm
    simp [List.mem_singleton] at hm
  case addResponder =>
    cases heq.symm
    refine ⟨rfl, rfl, rfl, ?_⟩
    intro m hm
    simp [List.mem_singleton] at hm

/-! ### Claim C1 -/

/-- C1 counterexample: with a non-empty follow-up queue and a positive
delete acknowledgement, the handler pops and transmits the queued message
but returns `FINISHED`, not `CONTINUE` as the claim states (the handler
re-registers itself with the transport via `protocol.send(msg, self)`
instead). -/
theorem c1_nonempty_queue_returns_finished :
    hQueue.msg_received (InsteonMsg.outAllLinkUpdate Cmd.delete true) =
      some ({ entry := e1, existing_entry := none, next := [] },
            [Act.db (DbAct.deleteEntry e0), Act.send 7], MsgCode.finished) ∧
    MsgCode.finished ≠ MsgCode.cont := by
  decide

/-- C1 (amended): `msg_received` returns `UNKNOWN` with no action for a
message that is not an `OutAllLinkUpdate`; on a positive acknowledgement,
after applying the mutation, if the follow-up queue is non-empty it pops
the head `(message, entry)` pair, makes the popped entry the current
pending entry, transmits the popped message, invokes no completion
callback, and returns `FINISHED` (not `CONTINUE`: the handler re-registers
itself with the transport when sending); if the queue is empty it invokes
`onDone(true, successMessage, entry)` exactly once and returns
`FINISHED`. -/
theorem modemdb_reply_routing (h : ModemDbModify) (cmd : Cmd) :
    (h.msg_received InsteonMsg.otherMsg = some (h, [], MsgCode.unknown)) ∧
    (∀ m2 e2 rest, h.next = (m2, e2) :: rest →
      ∀ h2 tr code,
        h.msg_received (InsteonMsg.outAllLinkUpdate cmd true) =
          some (h2, tr, code) →
        h2.entry = e2 ∧ h2.next = rest ∧
        tr.getLast? = some (Act.send m2) ∧ doneCount tr = 0 ∧
        code = MsgCode.finished) ∧
    (h.next = [] →
      ∀ h2 tr code,
        h.msg_received (InsteonMsg.outAllLinkUpdate cmd true) =
          some (h2, tr, code) →
        tr.getLast? =
          some (Act.callDone true "Modem database update complete" h.entry) ∧
        doneCount tr = 1 ∧ code = MsgCode.finished) := by
  refine ⟨rfl, ?_, ?_⟩
  · intro m2 e2 rest hnext h2 tr code heq
    cases hmut : h.applyMutation cmd with
    | none =>
      simp [ModemDbModify.msg_received, hmut] at heq
    | some p =>
      obtain ⟨h1v, av⟩ := p
      obtain ⟨hf1, hf2, hf3, -⟩ := applyMutation_frame h cmd h1v av hmut
      simp only [ModemDbModify.msg_received, hmut, hf1, hnext,
        Option.some.injEq, Prod.mk.injEq] at heq
      obtain ⟨rfl, rfl, rfl⟩ := heq
      refine ⟨rfl, rfl, ?_, ?_, rfl⟩
      · simp [List.getLast?_append]
      · simp only [doneCount, List.filter_append, List.length_append] at hf3 ⊢
        simp [hf3, Act.isDone]
  · intro hnext h2 tr code heq
    cases hmut : h.applyMutation cmd with
    | none =>
      simp [ModemDbModify.msg_received, hmut] at heq
    | some p =>
      obtain ⟨h1v, av⟩ := p
      obtain ⟨hf1, hf2, hf3, -⟩ := applyMutation_frame h cmd h1v av hmut
      simp only [ModemDbModify.msg_received, hmut, hf1, hnext,
        Option.some.injEq, Prod.mk.injEq] at heq
      obtain ⟨rfl, rfl, rfl⟩ := heq
      refine ⟨?_, ?_, rfl⟩
      · simp [List.getLast?_append, ModemDbModify.on_done, hf2]
      · simp only [doneCount, List.filter_append, List.length_append] at hf3 ⊢
        simp [hf3, ModemDbModify.on_done, Act.isDone]

/-- C1 witness: the amended theorem applied to a handler with one queued
follow-up (hypotheses discharged at `hQueue`) and to a handler with an
empty queue (at `hEmpty`). -/
theorem c1_reply_routing_witness :
    (({ entry := e1, existing_entry := none, next := [] } :
        ModemDbModify).entry = e1 ∧
     ({ entry := e1, existing_entry := none, next := [] } :
        ModemDbModify).next = ([] : List (OutMsg × ModemEntry)) ∧
     ([Act.db (DbAct.deleteEntry e0), Act.send 7].getLast? =
        some (Act.send 7)) ∧
     doneCount [Act.db (DbAct.deleteEntry e0), Act.send 7] = 0 ∧
     MsgCode.finished = MsgCode.finished) ∧
    (([Act.db (DbAct.deleteEntry e0),
       Act.callDone true "Modem database update complete" e0].getLast? =
        some (Act.callDone true "Modem database update complete" hEmpty.entry)) ∧
     doneCount [Act.db (DbAct.deleteEntry e0),
       Act.callDone true "Modem database update complete" e0] = 1 ∧
     MsgCode.finished = MsgCode.finished) := by
  constructor
  · exact (modemdb_reply_routing hQueue Cmd.delete).2.1 7 e1 [] rfl
      { entry := e1, existing_entry := none, next := [] }
      [Act.db (DbAct.deleteEntry e0), Act.send 7] MsgCode.finished (by decide)
  · exact (modemdb_reply_routing hEmpty Cmd.delete).2.2 rfl hEmpty
      [Act.db (DbAct.deleteEntry e0),
       Act.callDone true "Modem database update complete" e0]
      MsgCode.finished (by decide)

/-! ### Claim C2 -/

/-- C2: the database is mutated only inside the positive-acknowledgement
branch — every database action in a `msg_received` trace implies the
message was an acknowledged `OutAllLinkUpdate`; queueing a follow-up with
`add_update` only appends to the queue; and on a negative acknowledgement
the handler performs no database action, invokes the completion callback
exactly once with `success = false`, leaves its state unchanged, and
terminates with `FINISHED` (the terminal failure outcome the spec calls
`FAILED`). -/
theorem modemdb_mutation_only_on_ack (h : ModemDbModify) (m : InsteonMsg)
    (om : OutMsg) (e : ModemEntry) :
    (∀ cmd, h.msg_received (InsteonMsg.outAllLinkUpdate cmd false) =
        some (h, [Act.callDone false "Modem database update failed" h.entry],
              MsgCode.finished)) ∧
    (h.add_update om e = { h with next := h.next ++ [(om, e)] }) ∧
    (∀ h2 tr code a, h.msg_received m = some (h2, tr, code) →
        Act.db a ∈ tr → ∃ cmd, m = InsteonMsg.outAllLinkUpdate cmd true) := by
  refine ⟨fun cmd => rfl, rfl, ?_⟩
  intro h2 tr code a heq hmem
  cases m with
  | otherMsg =>
    simp only [ModemDbModify.msg_received, Option.some.injEq,
      Prod.mk.injEq] at heq
    obtain ⟨-, rfl, -⟩ := heq
    simp at hmem
  | outAllLinkUpdate cmd is_ack =>
    cases is_ack with
    | false =>
      simp only [ModemDbModify.msg_received, Bool.not_false, if_pos,
        Option.some.injEq, Prod.mk.injEq] at heq
      obtain ⟨-, rfl, -⟩ := heq
      simp [ModemDbModify.on_done] at hmem
    | true => exact ⟨cmd, rfl⟩

/-- C2 witness: the theorem applied to the concrete handler `hEmpty` and a
positively acknowledged delete message, whose trace does contain a
database action. -/
theorem modemdb_mutation_only_on_ack_witness :
    ∃ cmd, InsteonMsg.outAllLinkUpdate Cmd.delete true =
      InsteonMsg.outAllLinkUpdate cmd true := by
  refine (modemdb_mutation_only_on_ack hEmpty
      (InsteonMsg.outAllLinkUpdate Cmd.delete true) 7 e1).2.2 hEmpty
    [Act.db (DbAct.deleteEntry e0),
     Act.callDone true "Modem database update complete" e0]
    MsgCode.finished (DbAct.deleteEntry e0) (by decide) (by decide)

/-! ### Claim C3 -/

/-- C3: on an update-command positive reply the handler requires
`existing_entry` to be non-null (the failed assertion — modelled as
`none` — otherwise); with an existing entry `e` it replaces only the data
field of `e`, leaving address, group and role unchanged, and the trace
saves the database (index 1, right after the in-place data write at index
0) strictly before any follow-up send. -/
theorem modemdb_update_in_place (h : ModemDbModify) (e : ModemEntry) :
    (h.existing_entry = none →
      h.msg_received (InsteonMsg.outAllLinkUpdate Cmd.update true) = none) ∧
    (h.existing_entry = some e →
      ∃ h2 tr,
        h.msg_received (InsteonMsg.outAllLinkUpdate Cmd.update true) =
          some (h2, tr, MsgCode.finished) ∧
        h2.existing_entry = some { e with data := h.entry.data } ∧
        ({ e with data := h.entry.data } : ModemEntry).addr = e.addr ∧
        ({ e with data := h.entry.data } : ModemEntry).group = e.group ∧
        ({ e with data := h.entry.data } : ModemEntry).is_controller =
          e.is_controller ∧
        tr[0]? = some (Act.db (DbAct.setData e h.entry.data)) ∧
        tr[1]? = some (Act.db DbAct.save) ∧
        (∀ j m2, tr[j]? = some (Act.send m2) → 1 < j)) := by
  constructor
  · intro hex
    simp [ModemDbModify.msg_received, ModemDbModify.applyMutation, hex]
  · intro hex
    have hmut : h.applyMutation Cmd.update =
        some ({ h with existing_entry := some { e with data := h.entry.data } },
              [Act.db (DbAct.setData e h.entry.data), Act.db DbAct.save]) := by
      simp [ModemDbModify.applyMutation, hex]
    cases hnext : h.next with
    | nil =>
      refine ⟨{ h with existing_entry := some { e with data := h.entry.data } },
        [Act.db (DbAct.setData e h.entry.data), Act.db DbAct.save,
         Act.callDone true "Modem database update complete" h.entry],
        ?_, rfl, rfl, rfl, rfl, rfl, rfl, ?_⟩
      · simp only [ModemDbModify.msg_received, hmut, hnext]
        rfl
      · intro j m2 hj
        match j, hj with
        | 0, hj => simp at hj
        | 1, hj => simp at hj
        | 2, hj => simp at hj
        | (n + 3), hj => simp at hj
    | cons p rest =>
      obtain ⟨m2, e2⟩ := p
      refine ⟨{ h with entry := e2, existing_entry := some { e with data := h.entry.data }, next := rest },
        [Act.db (DbAct.setData e h.entry.data), Act.db DbAct.save,
         Act.send m2],
        ?_, rfl, rfl, rfl, rfl, rfl, rfl, ?_⟩
      · simp only [ModemDbModify.msg_received, hmut, hnext]
        rfl
      · intro j m3 hj
        match j, hj with
        | 0, hj => simp at hj
        | 1, hj => simp at hj
        | 2, hj => omega
        | (n + 3), hj => simp at hj

/-- C3 witness: the theorem applied to a handler with no existing entry
(the contract violation) and to a handler holding an existing entry. -/
theorem modemdb_update_in_place_witness :
    (hEmpty.msg_received (InsteonMsg.outAllLinkUpdate Cmd.update true) =
      none) ∧
    (∃ h2 tr,
      ({ entry := e0, existing_entry := some e1, next := [] } :
          ModemDbModify).msg_received
          (InsteonMsg.outAllLinkUpdate Cmd.update true) =
        some (h2, tr, MsgCode.finished) ∧
      h2.existing_entry = some { e1 with data := e0.data } ∧
      ({ e1 with data := e0.data } : ModemEntry).addr = e1.addr ∧
      ({ e1 with data := e0.data } : ModemEntry).group = e1.group ∧
      ({ e1 with data := e0.data } : ModemEntry).is_controller =
        e1.is_controller ∧
      tr[0]? = some (Act.db (DbAct.setData e1 e0.data)) ∧
      tr[1]? = some (Act.db DbAct.save) ∧
      (∀ j m2, tr[j]? = some (Act.send m2) → 1 < j)) :=
  ⟨(modemdb_update_in_place hEmpty e1).1 rfl,
   (modemdb_update_in_place
      { entry := e0, existing_entry := some e1, next := [] } e1).2 rfl⟩

/-! ## Embedding of `mqtt/MsgTemplate.py` -/

/-- The data dictionary passed to a template render; its contents are
opaque to `MsgTemplate`. -/
abbrev TemplateData := List (String × String)

/-- Outcome of `jinja2.Template.render(data)`: the rendered string, or a
raised exception.  The jinja2 library is an external collaborator; a
template is modelled extensionally by its rendering behaviour. -/
inductive RenderOutcome where
  | ok (s : String)
  | raised
deriving DecidableEq

/-- A `jinja2.Template` object, modelled by what `render` does on each
data dictionary. -/
structure Jinja2Template where
  render : TemplateData → RenderOutcome

/-- An `MsgTemplate` instance after construction: the stored qos and the
two compiled templates (the raw `topic_str`/`payload_str` copies are used
only in log messages and are omitted). -/
structure MsgTemplate where
  qos : Nat
  topic : Jinja2Template
  payload : Jinja2Template

/-- `MsgTemplate._render(raw, template, data, silent)`: returns the
rendered value, or `None` if rendering raises (the exception is caught
and only logged, so nothing propagates to the caller). -/
def MsgTemplate.render1 (template : Jinja2Template) (data : TemplateData) :
    Option String :=
  match template.render data with
  | RenderOutcome.ok s => some s
  | RenderOutcome.raised => none

/-- `render_topic(data)`. -/
def MsgTemplate.render_topic (m : MsgTemplate) (data : TemplateData) :
    Option String :=
  MsgTemplate.render1 m.topic data

/-- `render_payload(data)`. -/
def MsgTemplate.render_payload (m : MsgTemplate) (data : TemplateData) :
    Option String :=
  MsgTemplate.render1 m.payload data

/-- Python truthiness of an optional string: `None` and the empty string
are falsy. -/
def pyTruthy : Option String → Bool
  | none => false
  | some s => decide (s ≠ "")

/-- `MsgTemplate.publish(mqtt, data)`: renders topic and payload and, when
both are truthy, calls `mqtt.publish(topic, payload, self.qos)`.  The
returned list is the sequence of `mqtt.publish` calls made
(topic, payload, qos). -/
def MsgTemplate.publish (m : MsgTemplate) (data : TemplateData) :
    List (String × String × Nat) :=
  let topic := m.render_topic data
  let payload := m.render_payload data
  if pyTruthy topic && pyTruthy payload then
    [(topic.getD "", payload.getD "", m.qos)]
  else
    []

/-! ### Claim C9 -/

/-- C9: `publish` calls `mqtt.publish` exactly once — with the rendered
topic, the rendered payload and the stored qos — precisely when both
templates render without raising to non-empty strings; when either render
raises or yields an empty string nothing is published; and no exception
propagates (rendering failures are absorbed by `_render`, so `publish`
is a total function of the render outcomes). -/
theorem msgtemplate_publish_iff (m : MsgTemplate) (data : TemplateData) :
    (∀ t p, m.topic.render data = RenderOutcome.ok t → t ≠ "" →
        m.payload.render data = RenderOutcome.ok p → p ≠ "" →
        m.publish data = [(t, p, m.qos)]) ∧
    ((m.topic.render data = RenderOutcome.raised ∨
      m.topic.render data = RenderOutcome.ok "" ∨
      m.payload.render data = RenderOutcome.raised ∨
      m.payload.render data = RenderOutcome.ok "") →
        m.publish data = []) ∧
    (m.publish data).length ≤ 1 := by
  refine ⟨?_, ?_, ?_⟩
  · intro t p ht hte hp hpe
    simp [MsgTemplate.publish, MsgTemplate.render_topic,
      MsgTemplate.render_payload, MsgTemplate.render1, ht, hp, pyTruthy,
      hte, hpe]
  · intro hcase
    rcases hcase with h1 | h1 | h1 | h1 <;>
      simp [MsgTemplate.publish, MsgTemplate.render_topic,
        MsgTemplate.render_payload, MsgTemplate.render1, h1, pyTruthy]
  · simp only [MsgTemplate.publish]
    cases hb : pyTruthy (m.render_topic data) &&
        pyTruthy (m.render_payload data) <;>
      simp [hb]

/-- A template that always renders the same string, used in witnesses. -/
def constTemplate (s : String) : Jinja2Template :=
  { render := fun _ => RenderOutcome.ok s }

/-- A template whose render always raises, used in witnesses. -/
def raisingTemplate : Jinja2Template :=
  { render := fun _ => RenderOutcome.raised }

/-- A concrete `MsgTemplate` whose topic and payload always render. -/
def mtOk : MsgTemplate :=
  { qos := 1, topic := constTemplate "insteon/state",
    payload := constTemplate "on" }

/-- A concrete `MsgTemplate` whose payload render raises. -/
def mtRaise : MsgTemplate :=
  { qos := 1, topic := constTemplate "insteon/state",
    payload := raisingTemplate }

/-- C9 witness: the theorem applied to `mtOk` (publishing once) and to
`mtRaise` (publishing nothing). -/
theorem msgtemplate_publish_iff_witness :
    mtOk.publish [] = [("insteon/state", "on", 1)] ∧
    mtRaise.publish [] = [] :=
  ⟨(msgtemplate_publish_iff mtOk []).1 "insteon/state" "on" rfl
      (by decide) rfl (by decide),
   (msgtemplate_publish_iff mtRaise []).2.1 (Or.inr (Or.inr (Or.inl rfl)))⟩

/-! ### Claim C10: `clean_topic` -/

/-- Python whitespace characters removed by `str.strip()` (ASCII). -/
def pyIsSpace (c : Char) : Bool :=
  c = ' ' || c = '\t' || c = '\n' || c = '\r' || c = '\x0b' || c = '\x0c'

/-- Python `str.strip()` on a character list: drop whitespace from both
ends. -/
def pyStripL (l : List Char) : List Char :=
  ((l.dropWhile pyIsSpace).reverse.dropWhile pyIsSpace).reverse

/-- `MsgTemplate.clean_topic` on a character list, faithful to the
source: strip; if the result ends with a slash, drop the final character
(`topic[:-1]`) and strip again; otherwise strip again (a no-op) and
return. -/
def clean_topicL (l : List Char) : List Char :=
  let t := pyStripL l
  if t.getLast? = some '/' then pyStripL t.dropLast else pyStripL t

/-- `MsgTemplate.clean_topic` on strings. -/
def MsgTemplate.clean_topic (s : String) : String :=
  String.mk (clean_topicL s.data)

/-- Head of a `dropWhile` result never satisfies the dropped predicate. -/
theorem head_dropWhile_not {α : Type} (p : α → Bool) (l : List α) (c : α)
    (h : (l.dropWhile p).head? = some c) : p c = false := by
  induction l with
  | nil => simp [List.dropWhile] at h
  | cons a as ih =>
    rw [List.dropWhile_cons] at h
    by_cases hp : p a = true
    · rw [if_pos hp] at h
      exact ih h
    · rw [if_neg hp] at h
      simp only [List.head?_cons, Option.some.injEq] at h
      subst h
      exact Bool.of_not_eq_true hp

/-- If the head of a list does not satisfy `p`, `dropWhile p` keeps the
list unchanged. -/
theorem dropWhile_eq_self_of_head {α : Type} (p : α → Bool) (m : List α)
    (hm : ∀ c, m.head? = some c → p c = false) : m.dropWhile p = m := by
  cases m with
  | nil => rfl
  | cons a as =>
    rw [List.dropWhile_cons, if_neg]
    simp [hm a rfl]

/-- The last character of a stripped list is not whitespace. -/
theorem pyStrip_getLast (l : List Char) (c : Char)
    (h : (pyStripL l).getLast? = some c) : pyIsSpace c = false := by
  unfold pyStripL at h
  rw [List.getLast?_reverse] at h
  exact head_dropWhile_not pyIsSpace _ c h

/-- The first character of a stripped list is not whitespace. -/
theorem pyStrip_head (l : List Char) (c : Char)
    (h : (pyStripL l).head? = some c) : pyIsSpace c = false := by
  unfold pyStripL at h
  rw [List.head?_reverse] at h
  obtain ⟨t, ht⟩ := List.dropWhile_suffix
    (l := (l.dropWhile pyIsSpace).reverse) pyIsSpace
  have hne : (l.dropWhile pyIsSpace).reverse.dropWhile pyIsSpace ≠ [] := by
    intro hnil
    rw [hnil] at h
    simp at h
  have hlast : ((l.dropWhile pyIsSpace).reverse).getLast? = some c := by
    rw [← ht, List.getLast?_append_of_ne_nil _ hne]
    exact h
  rw [List.getLast?_reverse] at hlast
  exact head_dropWhile_not pyIsSpace _ c hlast

/-- Stripping is idempotent. -/
theorem pyStrip_idem (l : List Char) : pyStripL (pyStripL l) = pyStripL l := by
  conv_lhs => rw [pyStripL]
  rw [dropWhile_eq_self_of_head pyIsSpace (pyStripL l) (pyStrip_head l)]
  rw [dropWhile_eq_self_of_head pyIsSpace (pyStripL l).reverse]
  · exact List.reverse_reverse _
  · intro c hc
    rw [List.head?_reverse] at hc
    exact pyStrip_getLast l c hc

/-- C10: `clean_topic` strips leading and trailing whitespace; when the
stripped input ends with a slash it removes exactly that one trailing
slash and strips again, otherwise it returns the stripped input; the
result never begins or ends with whitespace; and an input ending in two
slashes still ends with a slash after cleaning (only one slash is
removed). -/
theorem msgtemplate_clean_topic_spec :
    (∀ l : List Char, (pyStripL l).getLast? = some '/' →
        clean_topicL l = pyStripL ((pyStripL l).dropLast)) ∧
    (∀ l : List Char, (pyStripL l).getLast? ≠ some '/' →
        clean_topicL l = pyStripL l) ∧
    (∀ (l : List Char) (c : Char), (clean_topicL l).head? = some c →
        pyIsSpace c = false) ∧
    (∀ (l : List Char) (c : Char), (clean_topicL l).getLast? = some c →
        pyIsSpace c = false) ∧
    MsgTemplate.clean_topic " a// " = "a/" := by
  refine ⟨?_, ?_, ?_, ?_, ?_⟩
  · intro l hl
    simp [clean_topicL, hl]
  · intro l hl
    simp [clean_topicL, hl, pyStrip_idem]
  · intro l c hc
    unfold clean_topicL at hc
    by_cases hl : (pyStripL l).getLast? = some '/'
    · rw [if_pos hl] at hc
      exact pyStrip_head _ c hc
    · rw [if_neg hl] at hc
      exact pyStrip_head _ c hc
  · intro l c hc
    unfold clean_topicL at hc
    by_cases hl : (pyStripL l).getLast? = some '/'
    · rw [if_pos hl] at hc
      exact pyStrip_getLast _ c hc
    · rw [if_neg hl] at hc
      exact pyStrip_getLast _ c hc
  · decide

/-- C10 witness: the characterization applied to concrete inputs: a
topic with one trailing slash and surrounding blanks is stripped and
loses the slash; a topic with no trailing slash is only stripped. -/
theorem msgtemplate_clean_topic_spec_witness :
    clean_topicL (" a/ ".data) = pyStripL ((pyStripL " a/ ".data).dropLast) ∧
    clean_topicL (" ab ".data) = pyStripL (" ab ".data) :=
  ⟨msgtemplate_clean_topic_spec.1 " a/ ".data (by decide),
   msgtemplate_clean_topic_spec.2.1 " ab ".data (by decide)⟩

/-! ## Embedding of `device/NWayDimmer.py`

Two systematic slips of this class shape the embedding.  First, every
command method opens with a log call whose arguments read `self.label`
or `self.addr` — attributes the class (which has no base class and no
`__getattr__`) never assigns — and Python evaluates call arguments
eagerly, so each of these methods raises `AttributeError` on its first
statement, before any validation, sequence construction or loop.
Second, the device loops iterate the device dictionary with
`for _, device in self._devices:` (and `for addr, device in ...`),
without `.items()`.  Iterating a Python dict yields its KEYS, so each
loop tries to unpack an address string into two variables: for an
address whose length is not 2 this raises `ValueError` on the first
key; for a 2-character key it binds two 1-character strings and the
first attribute access on the bound `device` (a `str`) raises
`AttributeError`.  The constructor loop (line 134) is reached — it has
no `self.label`/`self.addr` access before it — while the loops inside
the command methods sit behind the attribute failure.  The embedding
keeps each method body in source order, so the later statements appear
after the failing access even though they are unreachable. -/

/-- Python exception kinds raised by the embedded methods. -/
inductive PyErr where
  | valueError
  | attributeError
  | typeError
  | assertionError
  | exception (msg : String)
deriving DecidableEq

/-- A managed `Dimmer` device as constructed by `NWayDimmer.__init__`:
the address and name passed to the `Dimmer` constructor (protocol and
modem references are external).  Note the source builds names with
`"%s-secondary-%d".format(name, i)`: `str.format` substitutes `{}`
placeholders only, so the literal format string is returned unchanged;
the embedding keeps that value. -/
structure Dimmer where
  addr : String
  name : Option String
deriving DecidableEq

/-- Python dict insertion on an insertion-ordered association list:
assigning an existing key overwrites its value in place (keeping its
original position), a new key is appended. -/
def dictInsert (l : List (String × Dimmer)) (k : String) (v : Dimmer) :
    List (String × Dimmer) :=
  if l.any (fun p => p.1 = k) then
    l.map (fun p => if p.1 = k then (k, v) else p)
  else
    l ++ [(k, v)]

/-- The `self._devices` dict after `__init__` lines 117-132: one Dimmer
per secondary (keyed by its address, in list order), then
`self._devices[self._primary] = Dimmer(...)`. -/
def mkDevices (primary : String) (secondaries : List String)
    (name : Option String) : List (String × Dimmer) :=
  let base := secondaries.foldl
    (fun acc s =>
      dictInsert acc s { addr := s, name := name.map (fun _ => "%s-secondary-%d") })
    []
  dictInsert base primary
    { addr := primary, name := name.map (fun _ => "%s-primary") }

/-- Outcome of entering a `for a, b in self._devices:` loop: `none` when
the dict is empty (the loop body never runs and control falls through),
otherwise the exception raised on the first key: `ValueError` unpacking
a key whose length is not 2, else `AttributeError` from the first
attribute access on the 1-character string bound to `device`. -/
def devicesLoopErr : List (String × Dimmer) → Option PyErr
  | [] => none
  | (k, _) :: _ =>
    some (if k.length = 2 then PyErr.attributeError else PyErr.valueError)

/-- The state of an `NWayDimmer`: the current `_level`, the `_primary`
address, and the `_devices` dict. -/
structure NWayDimmer where
  level : Nat
  primary : String
  devices : List (String × Dimmer)
deriving DecidableEq

/-- `NWayDimmer.__init__`: builds `self._devices`, then runs
`for _, device in self._devices:` to register devices and connect the
reconciliation listener — which raises on the first key as described
above.  The constructor succeeds only if the device dict were empty,
which it never is (it always contains the primary). -/
def NWayDimmer.init (primary : String) (secondaries : List String)
    (name : Option String) : Except PyErr NWayDimmer :=
  let devices := mkDevices primary secondaries name
  match devicesLoopErr devices with
  | some e => Except.error e
  | none => Except.ok { level := 0, primary := primary, devices := devices }

/-- Attribute lookup `self.label` on an `NWayDimmer`: `__init__` assigns
only `_level`, `_primary`, `modem`, `protocol`, `_devices` and
`signal_level_changed`, the class defines no `label` attribute, property
or base class, so the lookup raises `AttributeError`. -/
def NWayDimmer.labelAttr (d : NWayDimmer) : Except PyErr String :=
  Except.error PyErr.attributeError

/-- Attribute lookup `self.addr` on an `NWayDimmer`: likewise never
assigned, so the lookup raises `AttributeError`. -/
def NWayDimmer.addrAttr (d : NWayDimmer) : Except PyErr String :=
  Except.error PyErr.attributeError

/-- A step added to a `CommandSeq` by an `NWayDimmer` method: either a
per-member device operation (added by the device loops, which in fact
raise before adding any) or one of the aggregate's own flag setters
(added by `set_flags`). -/
inductive Step where
  | devPair (d : Dimmer)
  | devDbAddRespOf (d : Dimmer) (group : Nat) (otherAddr : String) (otherGroup : Nat)
  | devDbAddCtrlOf (d : Dimmer) (group : Nat) (otherAddr : String) (otherGroup : Nat)
  | devOn (d : Dimmer) (group : Nat) (level : Nat) (instant : Bool)
  | selfSetBacklight (level : Nat)
  | selfSetOnLevel (level : Nat)
deriving DecidableEq

/-- `NWayDimmer.pair(on_done)`: its first statement is
`LOG.error(..., self.label)` (line 154), whose eager `self.label`
argument raises `AttributeError` before anything else runs.  The rest
of the body — create a `CommandSeq`, iterate the device dict to queue a
`pair` step and cross-link steps per device (the key-unpacking
iteration itself raising on the first key), run the sequence — follows
in source order but is unreachable.  The result is the queued step list
or the raised exception. -/
def NWayDimmer.pair (d : NWayDimmer) : Except PyErr (List Step) :=
  match d.labelAttr with
  | Except.error e => Except.error e
  | Except.ok _ =>
    match devicesLoopErr d.devices with
    | some e => Except.error e
    | none => Except.ok []

/-- `NWayDimmer.on(group, level, instant, on_done)`: its first
statement is `LOG.info(..., self.addr, level)` (line 187), whose eager
`self.addr` argument raises `AttributeError` before the asserts.  The
rest of the body — assert `level <= 0xff` and `group == 0x01` (level is
a Nat, so `level >= 0` always holds), then iterate the device dict to
queue one `on` step per device (the iteration raising as above) —
follows in source order but is unreachable. -/
def NWayDimmer.on (d : NWayDimmer) (group level : Nat) (instant : Bool) :
    Except PyErr (List Step) :=
  match d.addrAttr with
  | Except.error e => Except.error e
  | Except.ok _ =>
    if level > 0xff then Except.error PyErr.assertionError
    else if group ≠ 1 then Except.error PyErr.assertionError
    else
      match devicesLoopErr d.devices with
      | some e => Except.error e
      | none => Except.ok []

/-- Python percent formatting of a format string containing two `%s`
conversions.  The right operand of `%` supplies the arguments: a tuple
supplies one per element, any non-tuple value (such as a set) supplies
exactly one — and with two conversions and one argument Python raises
`TypeError: not enough arguments for format string`. -/
def formatTwoPercentS (fmt : String) (args : List String) :
    Except PyErr String :=
  match args with
  | [a, b] => Except.ok (fmt ++ a ++ b)
  | _ => Except.error PyErr.typeError

/-- Modelled from the spec: `util.input_byte(kwargs, key)` (the `util`
module is outside the source excerpt) reads an already-validated byte
value for a keyword; modelled as keyword lookup. -/
def input_byte (kwargs : List (String × Nat)) (key : String) : Nat :=
  (kwargs.lookup key).getD 0

/-- `NWayDimmer.set_flags(on_done, **kwargs)`: its first statement is
`LOG.info(..., self.label)` (line 331), whose eager `self.label`
argument raises `AttributeError` before the kwargs validation.  The
rest of the body follows in source order but is unreachable: compute
`set(kwargs.keys()).difference({"backlight", "on_level"})`; when that
is non-empty evaluate `raise Exception("..." % unknown, flags)` — the
`%` binds before the comma, its right operand is the one-element set
`unknown`, and the format string has two `%s` conversions, so the raise
expression itself would raise `TypeError`; otherwise build a
`CommandSeq`, queue a `set_backlight` step if `"backlink"` (the
source's typo) is in kwargs and a `set_on_level` step if `"on_level"`
is, and run the sequence.  Result: the queued steps or the raised
exception. -/
def NWayDimmer.set_flags (d : NWayDimmer) (kwargs : List (String × Nat)) :
    Except PyErr (List Step) :=
  match d.labelAttr with
  | Except.error e => Except.error e
  | Except.ok _ =>
  let flags := ["backlight", "on_level"]
  let unknown := (kwargs.map (fun p => p.1)).filter
    (fun k => !flags.contains k)
  if unknown ≠ [] then
    match formatTwoPercentS
        "Unknown Dimmer flags input: %s.\n Valid flags are: %s"
        [String.intercalate ", " unknown] with
    | Except.error e => Except.error e
    | Except.ok msg => Except.error (PyErr.exception msg)
  else
    Except.ok
      ((if kwargs.any (fun p => p.1 = "backlink") then
          [Step.selfSetBacklight (input_byte kwargs "backlight")]
        else []) ++
       (if kwargs.any (fun p => p.1 = "on_level") then
          [Step.selfSetOnLevel (input_byte kwargs "on_level")]
        else []))

/-- `NWayDimmer.handle_device_level_changed(device, level)`: when the
reported level differs from `self._level`, store it and emit
`signal_level_changed.emit(self, level)`; otherwise do nothing.  Returns
the new state and the list of emitted levels. -/
def NWayDimmer.handle_device_level_changed (d : NWayDimmer)
    (dev : Dimmer) (level : Nat) : NWayDimmer × List Nat :=
  if d.level ≠ level then ({ d with level := level }, [level])
  else (d, [])

/-- A concrete three-member aggregate state (the `_devices` dict as
built by `__init__` lines 117-132, before the constructor's own loop
raises), used for concrete evaluations. -/
def nway3 : NWayDimmer :=
  { level := 0, primary := "44.a3.79",
    devices := mkDevices "44.a3.79" ["aa.bb.cc", "11.22.33"] none }

/-! ### Claim C4 -/

/-- C4 counterexample: `pair()` on a three-member aggregate does not
build a 9-step sequence — its first statement reads `self.label`, an
attribute the class never defines, so it raises `AttributeError` before
the `CommandSeq` is created or any step is queued. -/
theorem c4_pair_crashes :
    nway3.pair = Except.error PyErr.attributeError := by
  rfl

/-- C4 (amended): `pair()` never queues a pair or cross-linking step on
any aggregate state: the eager `self.label` access in its opening log
call (line 154) raises `AttributeError` as the first action of the
method, before the sequence exists.  (Even past that access, the
device-map iteration unpacks dict keys and would raise as well.) -/
theorem nway_pair_never_queues (d : NWayDimmer) :
    d.pair = Except.error PyErr.attributeError := by
  rfl

/-! ### Claim C5 -/

/-- C5 evaluation at the failing input: building `self._devices` for
primary `44.a3.79` and secondaries `[aa.bb.cc, 11.22.33]` does produce
three devices keyed by unique address, and a duplicate of the primary
among the secondaries is overwritten by the primary entry — but the
constructor then raises `ValueError` in its own device loop (missing
`.items()`, line 134), so no aggregate is ever constructed; and `on()`
raises `AttributeError` at the eager `self.addr` access of its opening
log call (line 187) instead of queueing three steps. -/
theorem nway_construction_crashes :
    mkDevices "44.a3.79" ["aa.bb.cc", "11.22.33"] (some "stairs") =
      [("aa.bb.cc", { addr := "aa.bb.cc", name := some "%s-secondary-%d" }),
       ("11.22.33", { addr := "11.22.33", name := some "%s-secondary-%d" }),
       ("44.a3.79", { addr := "44.a3.79", name := some "%s-primary" })] ∧
    mkDevices "44.a3.79" ["aa.bb.cc", "44.a3.79"] (some "stairs") =
      [("aa.bb.cc", { addr := "aa.bb.cc", name := some "%s-secondary-%d" }),
       ("44.a3.79", { addr := "44.a3.79", name := some "%s-primary" })] ∧
    NWayDimmer.init "44.a3.79" ["aa.bb.cc", "11.22.33"] (some "stairs") =
      Except.error PyErr.valueError ∧
    nway3.on 1 255 false = Except.error PyErr.attributeError := by
  refine ⟨by decide, by decide, by rfl, by rfl⟩

/-! ### Claim C6 -/

/-- C6: the aggregate updates its level only in
`handle_device_level_changed` (in this embedding no command method even
returns a state — mirroring that no other method of the class assigns
`self._level`): when a member reports a level different from the current
one, the aggregate stores it and emits its own `signal_level_changed`
exactly once; when the reported level equals the current one, nothing
changes and nothing is emitted. -/
theorem nway_level_reconciliation :
    (∀ (d : NWayDimmer) (dev : Dimmer) (lvl : Nat), d.level ≠ lvl →
        (d.handle_device_level_changed dev lvl).1.level = lvl ∧
        (d.handle_device_level_changed dev lvl).2 = [lvl]) ∧
    (∀ (d : NWayDimmer) (dev : Dimmer) (lvl : Nat), d.level = lvl →
        d.handle_device_level_changed dev lvl = (d, [])) := by
  constructor <;>
    · intro d dev lvl h
      simp [NWayDimmer.handle_device_level_changed, h]

/-- C6 witness: the spec scenario — at level 0 a member report of 200
stores 200 and emits once; a second report of 200 (now equal) changes
nothing and emits nothing. -/
theorem nway_level_reconciliation_witness :
    ((nway3.handle_device_level_changed
        { addr := "aa.bb.cc", name := none } 200).1.level = 200 ∧
     (nway3.handle_device_level_changed
        { addr := "aa.bb.cc", name := none } 200).2 = [200]) ∧
    ({ nway3 with level := 200 } : NWayDimmer).handle_device_level_changed
        { addr := "11.22.33", name := none } 200 =
      ({ nway3 with level := 200 }, []) :=
  ⟨nway_level_reconciliation.1 nway3
      { addr := "aa.bb.cc", name := none } 200 (by decide),
   nway_level_reconciliation.2 { nway3 with level := 200 }
      { addr := "11.22.33", name := none } 200 rfl⟩

/-! ### Claim C7 -/

/-- C7 evaluation at the failing input: `set_flags` with the unknown
key `gamma` raises before any step is queued and before any wire
activity — but the raised condition is the `AttributeError` from the
eager `self.label` access of its opening log call (line 331), reached
before the kwargs validation even runs, not an `UnsupportedFlag`
condition enumerating the accepted flag set.  (The validation itself is
unreachable; were it reached, its `raise ... % unknown` expression
would produce a `TypeError`, still not an enumerating message.) -/
theorem nway_set_flags_unknown_key :
    nway3.set_flags [("gamma", 1)] = Except.error PyErr.attributeError := by
  rfl

/-! ### Claim C8 -/

/-- C8 evaluation at the failing inputs: `set_flags` never builds a
sequence at all — the eager `self.label` access of its opening log
call (line 331) raises `AttributeError` before the `CommandSeq` is
created, for backlight and on_level alike, so no step is ever queued
for any supplied flag.  (Behind that failure lies a second slip: line
343 tests `"backlink" in kwargs`, a typo for `backlight`, so even with
the label access fixed the backlight flag would queue no step.) -/
theorem nway_set_flags_raises_before_steps :
    nway3.set_flags [("backlight", 31)] =
      Except.error PyErr.attributeError ∧
    nway3.set_flags [("on_level", 64)] =
      Except.error PyErr.attributeError ∧
    nway3.set_flags [("backlight", 31), ("on_level", 64)] =
      Except.error PyErr.attributeError := by
  refine ⟨by rfl, by rfl, by rfl⟩
